import Mathlib

/-!
Shallow embedding of the EcoFinds marketplace backend (Node/Express +
Mongoose), restricted to the parts the verified claims are about: the
product (listing) store, the cart store, the purchase workflow, and the
pagination parameter handling of the list endpoints.

Conventions of the embedding:
* Mongo ObjectIds become `Nat` identifiers.
* JS numbers become exact rationals `ℚ`; `Math.round` becomes `jsRound`
  (round half toward positive infinity, which is JS semantics).
* The document database becomes an explicit `DB` record threaded through
  each controller; a Mongoose query is a pure function on it.
* `populate` of a referenced document becomes an `Option` lookup
  (`none` models a dangling reference, i.e. the document was deleted).
* Controller handlers return an outcome value (mirroring the JSON
  response branches) together with the updated database.
-/

namespace EcoFinds

/-- JS `Math.round`: round half toward positive infinity, `⌊x + 1/2⌋`. -/
def jsRound (x : ℚ) : ℤ :=
  ⌊x + 1/2⌋

/-- The repository's money rounding idiom `Math.round(x * 100) / 100`:
round to 2 decimal places. -/
def round2 (x : ℚ) : ℚ :=
  (jsRound (x * 100) : ℚ) / 100

abbrev UserId := Nat
abbrev ProductId := Nat
abbrev CartId := Nat

/-- A product listing (`src/models/Product.js`), restricted to the fields
the cart/purchase workflow reads: owner, title, image, price,
availability flag. -/
structure Product where
  user : UserId
  title : String
  image : String
  price : ℚ
  isAvailable : Bool
deriving Repr, DecidableEq

/-- `productSchema.pre('save')` in `src/models/Product.js`: the stored
price always has at most 2 decimal places (the hook rounds whenever the
price was modified, in particular at creation). -/
def saveProduct (p : Product) : Product :=
  { p with price := round2 p.price }

/-- A cart entry (`src/models/CartItem.js`): one row per (user, product)
pair with a quantity. -/
structure CartItem where
  id : CartId
  user : UserId
  product : ProductId
  quantity : Nat
deriving Repr, DecidableEq

/-- One snapshot line of a purchase (`src/models/Purchase.js`,
`products` subdocument): listing reference, quantity, price at purchase,
copied title and image, seller reference. -/
structure PurchaseLine where
  product : ProductId
  quantity : Nat
  priceAtPurchase : ℚ
  title : String
  image : String
  seller : UserId
deriving Repr, DecidableEq

/-- Purchase status enum (`src/models/Purchase.js`), default
`completed`. -/
inductive PurchaseStatus where
  | pending
  | completed
  | cancelled
deriving Repr, DecidableEq

/-- A purchase record (`src/models/Purchase.js`). -/
structure Purchase where
  user : UserId
  products : List PurchaseLine
  total : ℚ
  status : PurchaseStatus
  notes : String
deriving Repr, DecidableEq

/-- The document database: the three collections the claims touch. -/
structure DB where
  products : List (ProductId × Product)
  cartItems : List CartItem
  purchases : List Purchase
deriving Repr, DecidableEq

/-- `Product.findById`. -/
def findProduct (db : DB) (pid : ProductId) : Option Product :=
  (db.products.find? (fun e => e.1 == pid)).map (·.2)

/-- Sum of `quantity * priceAtPurchase` over purchase lines, accumulated
left to right exactly like the `for` loops in `src/models/Purchase.js`. -/
def linesTotal (lines : List PurchaseLine) : ℚ :=
  lines.foldl (fun acc l => acc + (l.quantity : ℚ) * l.priceAtPurchase) 0

/-- `purchaseSchema.pre('save')` in `src/models/Purchase.js`: recompute
`total` from the lines (`Math.round(calculatedTotal * 100) / 100`)
immediately before persistence. -/
def purchasePreSave (p : Purchase) : Purchase :=
  { p with total := round2 (linesTotal p.products) }

/-- `purchase.save()`: the pre-save hook runs, then the document is
persisted; the persisted value is the hook's output. -/
def savePurchase (p : Purchase) : Purchase :=
  purchasePreSave p

/-- A cart entry with its product reference resolved, as produced by
`CartItem.getUserCart`'s `populate`: `product = none` models a dangling
reference to a deleted listing. -/
structure PopItem where
  id : CartId
  user : UserId
  productId : ProductId
  quantity : Nat
  product : Option Product
deriving Repr, DecidableEq

/-- Resolve one cart entry's product reference. -/
def populate (db : DB) (ci : CartItem) : PopItem :=
  ⟨ci.id, ci.user, ci.product, ci.quantity, findProduct db ci.product⟩

/-- `CartItem.getUserCart(userId)` (`src/models/CartItem.js`): all of the
user's cart entries with products populated. The `addedAt` sort is
abstracted as the store order. -/
def getUserCart (db : DB) (u : UserId) : List PopItem :=
  (db.cartItems.filter (fun ci => ci.user == u)).map (populate db)

/-- Build one purchase line from a cart entry and its (resolved)
product, as in `Purchase.createFromCart`: copy the listing's title,
image, seller and current price into the snapshot. -/
def snapshotLine (ci : PopItem) (p : Product) : PurchaseLine :=
  ⟨ci.productId, ci.quantity, p.price, p.title, p.image, p.user⟩

/-- The `for` loop of `Purchase.createFromCart`: snapshot each cart
entry, throwing if an entry's product is missing or unavailable. -/
def buildLines : List PopItem → Except String (List PurchaseLine)
  | [] => .ok []
  | ci :: rest =>
    match ci.product with
    | none => .error "Product is no longer available"
    | some p =>
      if p.isAvailable then
        match buildLines rest with
        | .error e => .error e
        | .ok ls => .ok (snapshotLine ci p :: ls)
      else .error "Product is no longer available"

/-- `Purchase.createFromCart(userId, cartItems)`
(`src/models/Purchase.js` lines 190-223): throws on an empty cart or an
unavailable product, otherwise constructs the purchase with
`total = Math.round(total * 100) / 100`, `status` defaulting to
`completed`, `notes` defaulting to the empty string, and saves it (so
the pre-save hook recomputes `total`). -/
def createFromCart (userId : UserId) (cartItems : List PopItem) :
    Except String Purchase :=
  if cartItems.isEmpty then
    .error "Cannot create purchase from empty cart"
  else
    match buildLines cartItems with
    | .error e => .error e
    | .ok lines =>
      .ok (savePurchase
        { user := userId
          products := lines
          total := round2 (linesTotal lines)
          status := .completed
          notes := "" })

/-- JS `String.prototype.trim()`: strip leading and trailing
whitespace. -/
def jsTrim (s : String) : String :=
  ⟨((s.data.dropWhile Char.isWhitespace).reverse.dropWhile
      Char.isWhitespace).reverse⟩

/-- One record of the `unavailableItems` array built by `createPurchase`
(`src/controllers/productController.js`). -/
structure DroppedItem where
  cartItemId : CartId
  productTitle : Option String
  reason : String
deriving Repr, DecidableEq

/-- The per-entry validity check of `createPurchase`'s partition loop:
`some dropped` when the entry is invalid (product missing, product
unavailable, or a self-purchase), `none` when it is valid. -/
def classifyItem (userId : UserId) (ci : PopItem) : Option DroppedItem :=
  match ci.product with
  | none => some ⟨ci.id, none, "Product not found"⟩
  | some p =>
    if !p.isAvailable then
      some ⟨ci.id, some p.title, "Product no longer available"⟩
    else if p.user == userId then
      some ⟨ci.id, some p.title, "Cannot purchase your own product"⟩
    else
      none

/-- An entry is valid for checkout when the partition loop keeps it. -/
def isValidEntry (userId : UserId) (ci : PopItem) : Bool :=
  (classifyItem userId ci).isNone

/-- The dropped record an invalid entry contributes (placeholder for a
valid entry, never used on one). -/
def dropOf (userId : UserId) (ci : PopItem) : DroppedItem :=
  (classifyItem userId ci).getD ⟨ci.id, none, ""⟩

/-- The partition loop of `createPurchase`: split the cart into
`validItems` and `unavailableItems`, preserving iteration order. -/
def partitionCart (userId : UserId) :
    List PopItem → List PopItem × List DroppedItem
  | [] => ([], [])
  | ci :: rest =>
    let vd := partitionCart userId rest
    match classifyItem userId ci with
    | some dropped => (vd.1, dropped :: vd.2)
    | none => (ci :: vd.1, vd.2)

/-- `CartItem.deleteMany({_id: {$in: ids}})`. -/
def deleteCartItems (db : DB) (ids : List CartId) : DB :=
  { db with cartItems := db.cartItems.filter (fun ci => !ids.contains ci.id) }

/-- `CartItem.clearUserCart(userId)`: delete every cart entry of the
user. -/
def clearUserCart (db : DB) (u : UserId) : DB :=
  { db with cartItems := db.cartItems.filter (fun ci => ci.user != u) }

/-- Outcome of `createPurchase` (`POST /api/purchases`), one constructor
per JSON response branch of the handler. -/
inductive CheckoutOutcome where
  | emptyCart
  | noValidItems (unavailableItems : List DroppedItem)
  | success (purchase : Purchase) (removedUnavailableItems : List DroppedItem)
  | internalError
deriving Repr, DecidableEq

/-- `createPurchase` (`src/controllers/productController.js` lines
1146-1270), after express-validator acceptance: load the cart, fail on
empty, partition into valid and invalid entries, delete the invalid
entries, fail with no-valid-items if nothing remains, create the
purchase from the valid entries, save trimmed notes when provided, then
unconditionally clear the buyer's whole cart. An absent `notes` body
field is modelled as the empty string. -/
def createPurchase (db : DB) (userId : UserId) (notes : String) :
    CheckoutOutcome × DB :=
  let cartItems := getUserCart db userId
  if cartItems.isEmpty then
    (.emptyCart, db)
  else
    let vd := partitionCart userId cartItems
    let validItems := vd.1
    let unavailableItems := vd.2
    let db1 :=
      if unavailableItems.isEmpty then db
      else deleteCartItems db (unavailableItems.map (·.cartItemId))
    if validItems.isEmpty then
      (.noValidItems unavailableItems, db1)
    else
      match createFromCart userId validItems with
      | .error _ => (.internalError, db1)
      | .ok purchase0 =>
        let purchase :=
          if jsTrim notes ≠ "" then
            savePurchase { purchase0 with notes := jsTrim notes }
          else purchase0
        let db2 := clearUserCart db1 userId
        let db3 := { db2 with purchases := db2.purchases ++ [purchase] }
        (.success purchase unavailableItems, db3)

/-- Mongoose schema validation of a cart entry on `save()`
(`src/models/CartItem.js`): quantity must lie in `[1, 10]`. -/
def cartItemValidate (ci : CartItem) : Except String CartItem :=
  if 1 ≤ ci.quantity ∧ ci.quantity ≤ 10 then .ok ci
  else .error "Quantity out of range"

/-- `cartItemSchema.pre('save')` for a new entry: the referenced product
must exist and be available. -/
def cartItemCheckProduct (db : DB) (ci : CartItem) : Except String Unit :=
  match findProduct db ci.product with
  | none => .error "Product not found"
  | some p =>
    if p.isAvailable then .ok ()
    else .error "Product is no longer available"

/-- A fresh id for a newly inserted cart entry. -/
def freshCartId (db : DB) : CartId :=
  (db.cartItems.map (·.id)).foldl max 0 + 1

/-- `CartItem.addOrUpdateItem(userId, productId, quantity)`
(`src/models/CartItem.js` lines 129-152): increment an existing entry's
quantity clamped at 10, or insert a new entry with quantity
`min(quantity, 10)`; saving runs schema validation (and, for a new
entry, the product-availability pre-save hook). -/
def addOrUpdateItem (db : DB) (userId : UserId) (productId : ProductId)
    (quantity : Nat) : Except String (CartItem × DB) :=
  match db.cartItems.find? (fun c => c.user == userId && c.product == productId) with
  | some c0 =>
    let c1 := { c0 with quantity := min (c0.quantity + quantity) 10 }
    match cartItemValidate c1 with
    | .error e => .error e
    | .ok _ =>
      .ok (c1, { db with
        cartItems := db.cartItems.map (fun c => if c.id == c0.id then c1 else c) })
  | none =>
    let c1 : CartItem := ⟨freshCartId db, userId, productId, min quantity 10⟩
    match cartItemCheckProduct db c1 with
    | .error e => .error e
    | .ok _ =>
      match cartItemValidate c1 with
      | .error e => .error e
      | .ok _ => .ok (c1, { db with cartItems := db.cartItems ++ [c1] })

/-- Outcome of `addToCart` (`POST /api/cart`), one constructor per JSON
response branch. -/
inductive AddOutcome where
  | notFound
  | unavailable
  | selfPurchase
  | added (item : CartItem)
  | internalError
deriving Repr, DecidableEq

/-- `addToCart` (`src/controllers/productController.js` lines 587-656),
after express-validator acceptance (`quantity` in `[1, 10]`, defaulting
to 1): product must exist, be available and not be the caller's own,
then `CartItem.addOrUpdateItem` runs. -/
def addToCart (db : DB) (userId : UserId) (productId : ProductId)
    (quantity : Nat) : AddOutcome × DB :=
  match findProduct db productId with
  | none => (.notFound, db)
  | some p =>
    if !p.isAvailable then (.unavailable, db)
    else if p.user == userId then (.selfPurchase, db)
    else
      match addOrUpdateItem db userId productId quantity with
      | .error _ => (.internalError, db)
      | .ok cidb => (.added cidb.1, cidb.2)

/-- `CartItem.findById`. -/
def findCartItem (db : DB) (id : CartId) : Option CartItem :=
  db.cartItems.find? (fun ci => ci.id == id)

/-- `CartItem.findByIdAndDelete(id)`. -/
def deleteCartItem (db : DB) (id : CartId) : DB :=
  { db with cartItems := db.cartItems.filter (fun ci => ci.id != id) }

/-- Outcome of `updateCartItem` (`PUT /api/cart/:id`). -/
inductive UpdateOutcome where
  | notFound
  | forbidden
  | unavailableRemoved
  | updated (item : CartItem)
  | internalError
deriving Repr, DecidableEq

/-- `updateCartItem` (`src/controllers/productController.js` lines
723-798), after express-validator acceptance (`quantity` in `[1, 10]`):
existence check, then ownership check, then product-availability check
(deleting the entry when the product is gone or unavailable), then the
quantity update is saved. -/
def updateCartItem (db : DB) (userId : UserId) (id : CartId)
    (quantity : Nat) : UpdateOutcome × DB :=
  match findCartItem db id with
  | none => (.notFound, db)
  | some ci =>
    if ci.user != userId then (.forbidden, db)
    else
      match findProduct db ci.product with
      | none => (.unavailableRemoved, deleteCartItem db id)
      | some p =>
        if !p.isAvailable then (.unavailableRemoved, deleteCartItem db id)
        else
          let ci1 := { ci with quantity := quantity }
          match cartItemValidate ci1 with
          | .error _ => (.internalError, db)
          | .ok _ =>
            (.updated ci1, { db with
              cartItems := db.cartItems.map (fun c => if c.id == ci.id then ci1 else c) })

/-- Outcome of `removeFromCart` (`DELETE /api/cart/:id`). -/
inductive RemoveOutcome where
  | notFound
  | forbidden
  | removed
deriving Repr, DecidableEq

/-- `removeFromCart` (`src/controllers/productController.js` lines
805-843): existence check, then ownership check, then delete. -/
def removeFromCart (db : DB) (userId : UserId) (id : CartId) :
    RemoveOutcome × DB :=
  match findCartItem db id with
  | none => (.notFound, db)
  | some ci =>
    if ci.user != userId then (.forbidden, db)
    else (.removed, deleteCartItem db id)

/-- `item.product && item.product.isAvailable`: a populated cart entry
whose listing still exists and is available. -/
def itemAvailable (it : PopItem) : Bool :=
  match it.product with
  | some p => p.isAvailable
  | none => false

/-- `item.product.price` of a populated entry (0 for a dangling
reference; only read on available entries). -/
def popPrice (it : PopItem) : ℚ :=
  match it.product with
  | some p => p.price
  | none => 0

/-- The `total` accumulation loop of `getCart`:
`total += item.quantity * item.product.price`. -/
def cartSum (items : List PopItem) : ℚ :=
  items.foldl (fun acc it => acc + (it.quantity : ℚ) * popPrice it) 0

/-- The `itemCount` accumulation loop of `getCart`. -/
def cartCount (items : List PopItem) : Nat :=
  items.foldl (fun acc it => acc + it.quantity) 0

/-- The JSON payload of `getCart` (`GET /api/cart`). -/
structure CartView where
  items : List PopItem
  itemCount : Nat
  total : ℚ
  removedUnavailableItems : Nat
deriving Repr, DecidableEq

/-- `getCart` (`src/controllers/productController.js` lines 663-716):
load the populated cart, split into available and unavailable entries,
delete the unavailable ones from the store, and answer with the
available entries, their rounded total, and how many entries were
dropped. -/
def getCart (db : DB) (u : UserId) : CartView × DB :=
  let items := getUserCart db u
  let availableItems := items.filter itemAvailable
  let unavailableItems := items.filter (fun it => !itemAvailable it)
  let db1 :=
    if unavailableItems.isEmpty then db
    else deleteCartItems db (unavailableItems.map (·.id))
  (⟨availableItems, cartCount availableItems,
      round2 (cartSum availableItems), unavailableItems.length⟩, db1)

/-- `parseInt(q) || d`: `none` models an absent or non-numeric query
parameter (`parseInt` gives `NaN`, which is falsy), and a parsed 0 is
falsy too, so both fall back to the default. -/
def parseIntOr (d : Int) (q : Option Int) : Int :=
  match q with
  | none => d
  | some v => if v == 0 then d else v

/-- The failure mode of the purchase-history pagination code: `page` and
`limit` are declared `const`, so the clamping branches throw a
`TypeError` (assignment to a constant variable), which the handler's
`catch` turns into a 500 response. -/
inductive PageError where
  | typeErrorConstAssign
deriving Repr, DecidableEq

/-- The pagination-parameter handling of `getPurchases`
(`src/controllers/productController.js` lines 1280-1285), transcribed
as written: `const page = parseInt(req.query.page) || 1; const limit =
parseInt(req.query.limit) || 10; if (page < 1) page = 1; if (limit < 1
|| limit > 50) limit = 10;` — the two `if` bodies assign to `const`
bindings, hence throw instead of clamping. -/
def getPurchasesPagination (pageQ limitQ : Option Int) :
    Except PageError (Int × Int) :=
  let page := parseIntOr 1 pageQ
  let lim := parseIntOr 10 limitQ
  if page < 1 then .error .typeErrorConstAssign
  else if lim < 1 || lim > 50 then .error .typeErrorConstAssign
  else .ok (page, lim)

/-- The pagination-parameter handling of `getProducts`
(`src/controllers/productController.js` lines 85-86):
`Math.max(1, parseInt(page) || 1)` and
`Math.min(50, Math.max(1, parseInt(limit) || 10))`. -/
def getProductsPagination (pageQ limitQ : Option Int) : Int × Int :=
  (max 1 (parseIntOr 1 pageQ), min 50 (max 1 (parseIntOr 10 limitQ)))

/-- The pagination block of the `getProducts` response:
`totalPages = Math.ceil(totalProducts / limit)`,
`hasNextPage = page < totalPages`, `hasPrevPage = page > 1`. -/
structure Pagination where
  currentPage : Int
  totalPages : Int
  hasNextPage : Bool
  hasPrevPage : Bool
deriving Repr, DecidableEq

/-- Build the pagination block of `getProducts` from the clamped page,
the total count and the clamped limit. -/
def mkPagination (page : Int) (totalCount : Nat) (lim : Int) : Pagination :=
  let totalPages : Int := ((totalCount : ℚ) / (lim : ℚ)).ceil
  ⟨page, totalPages, decide (page < totalPages), decide (page > 1)⟩

/-- The snapshot a populated cart entry contributes to a purchase
(placeholder fields for a dangling reference, never used on one). -/
def snapOf (ci : PopItem) : PurchaseLine :=
  match ci.product with
  | some p => snapshotLine ci p
  | none => ⟨ci.productId, ci.quantity, 0, "", "", 0⟩

theorem populate_id (db : DB) (ci : CartItem) : (populate db ci).id = ci.id :=
  rfl

theorem dropOf_id (u : UserId) (ci : PopItem) :
    (dropOf u ci).cartItemId = ci.id := by
  unfold dropOf classifyItem
  cases ci.product with
  | none => rfl
  | some p =>
    by_cases hav : p.isAvailable <;>
      by_cases hu : p.user = u <;>
      simp [hav, hu]

theorem isValidEntry_available (u : UserId) (ci : PopItem)
    (h : isValidEntry u ci = true) : itemAvailable ci = true := by
  unfold isValidEntry classifyItem at h
  unfold itemAvailable
  cases hp : ci.product with
  | none => rw [hp] at h; simp at h
  | some p =>
    rw [hp] at h
    by_cases hav : p.isAvailable
    · exact hav
    · simp [hav] at h

theorem partitionCart_fst (u : UserId) (l : List PopItem) :
    (partitionCart u l).1 = l.filter (isValidEntry u) := by
  induction l with
  | nil => rfl
  | cons ci rest ih =>
    unfold partitionCart
    cases hc : classifyItem u ci with
    | none => simp [List.filter_cons, isValidEntry, hc, ih]
    | some d => simp [List.filter_cons, isValidEntry, hc, ih]

theorem partitionCart_snd (u : UserId) (l : List PopItem) :
    (partitionCart u l).2
      = (l.filter (fun ci => !isValidEntry u ci)).map (dropOf u) := by
  induction l with
  | nil => rfl
  | cons ci rest ih =>
    unfold partitionCart
    cases hc : classifyItem u ci with
    | none => simp [List.filter_cons, isValidEntry, hc, ih]
    | some d => simp [List.filter_cons, isValidEntry, dropOf, hc, ih]

theorem buildLines_ok (l : List PopItem)
    (h : ∀ ci ∈ l, itemAvailable ci = true) :
    buildLines l = .ok (l.map snapOf) := by
  induction l with
  | nil => rfl
  | cons ci rest ih =>
    have hci : itemAvailable ci = true := h ci (List.mem_cons_self ci rest)
    have hrest : buildLines rest = .ok (rest.map snapOf) :=
      ih (fun x hx => h x (List.mem_cons_of_mem ci hx))
    cases hp : ci.product with
    | none =>
      unfold itemAvailable at hci
      rw [hp] at hci
      simp at hci
    | some p =>
      have hav : p.isAvailable = true := by
        unfold itemAvailable at hci
        rw [hp] at hci
        exact hci
      unfold buildLines
      rw [hp]
      simp [hav, hrest, snapOf, hp]

theorem createFromCart_ok (u : UserId) (l : List PopItem)
    (hne : l ≠ [])
    (h : ∀ ci ∈ l, itemAvailable ci = true) :
    createFromCart u l
      = .ok (savePurchase
          { user := u
            products := l.map snapOf
            total := round2 (linesTotal (l.map snapOf))
            status := .completed
            notes := "" }) := by
  unfold createFromCart
  rw [buildLines_ok l h]
  simp [List.isEmpty_iff, hne]

theorem savePurchase_products (p : Purchase) :
    (savePurchase p).products = p.products :=
  rfl

theorem savePurchase_status (p : Purchase) :
    (savePurchase p).status = p.status :=
  rfl

theorem savePurchase_user (p : Purchase) : (savePurchase p).user = p.user :=
  rfl

theorem savePurchase_total (p : Purchase) :
    (savePurchase p).total = round2 (linesTotal p.products) :=
  rfl

theorem getUserCart_clear (db : DB) (u : UserId) (ps : List Purchase) :
    getUserCart { clearUserCart db u with purchases := ps } u = [] := by
  unfold getUserCart clearUserCart
  simp [List.filter_filter]

/-- The valid part of the buyer's cart at checkout time. -/
def checkoutValid (db : DB) (u : UserId) : List PopItem :=
  (getUserCart db u).filter (isValidEntry u)

/-- The dropped-items report of a checkout. -/
def checkoutDropped (db : DB) (u : UserId) : List DroppedItem :=
  ((getUserCart db u).filter (fun ci => !isValidEntry u ci)).map (dropOf u)

/-- The purchase a successful checkout persists: snapshot of the valid
entries, recomputed total, default status, then the optional notes
re-save. -/
def checkoutPurchase (db : DB) (u : UserId) (notes : String) : Purchase :=
  let p0 := savePurchase
    { user := u
      products := (checkoutValid db u).map snapOf
      total := round2 (linesTotal ((checkoutValid db u).map snapOf))
      status := .completed
      notes := "" }
  if jsTrim notes ≠ "" then savePurchase { p0 with notes := jsTrim notes } else p0

/-- The cart store state after the invalid-entry cleanup step. -/
def checkoutCleaned (db : DB) (u : UserId) : DB :=
  if (checkoutDropped db u).isEmpty then db
  else deleteCartItems db ((checkoutDropped db u).map (·.cartItemId))

theorem deleteCartItems_purchases (db : DB) (ids : List CartId) :
    (deleteCartItems db ids).purchases = db.purchases :=
  rfl

theorem checkoutCleaned_purchases (db : DB) (u : UserId) :
    (checkoutCleaned db u).purchases = db.purchases := by
  unfold checkoutCleaned
  by_cases h : (checkoutDropped db u).isEmpty <;> simp [h, deleteCartItems_purchases]

theorem createPurchase_empty_eq (db : DB) (u : UserId) (notes : String)
    (h : getUserCart db u = []) :
    createPurchase db u notes = (.emptyCart, db) := by
  unfold createPurchase
  simp [h]

theorem createPurchase_noValid_eq (db : DB) (u : UserId) (notes : String)
    (hne : getUserCart db u ≠ [])
    (hval : checkoutValid db u = []) :
    createPurchase db u notes
      = (.noValidItems (checkoutDropped db u), checkoutCleaned db u) := by
  have e1 : (getUserCart db u).isEmpty = false := by
    cases hgl : getUserCart db u with
    | nil => exact absurd hgl hne
    | cons a l => rfl
  have e2 : ((getUserCart db u).filter (isValidEntry u)).isEmpty = true := by
    have : (getUserCart db u).filter (isValidEntry u) = [] := hval
    rw [this]
    rfl
  unfold createPurchase
  simp only [partitionCart_fst, partitionCart_snd, e1, e2, Bool.false_eq_true,
    if_false, if_true]
  rfl

theorem createPurchase_success_eq (db : DB) (u : UserId) (notes : String)
    (hne : getUserCart db u ≠ [])
    (hval : checkoutValid db u ≠ []) :
    createPurchase db u notes
      = (.success (checkoutPurchase db u notes) (checkoutDropped db u),
         { clearUserCart (checkoutCleaned db u) u with
            purchases := (checkoutCleaned db u).purchases
              ++ [checkoutPurchase db u notes] }) := by
  have hav : ∀ ci ∈ checkoutValid db u, itemAvailable ci = true := by
    intro ci hci
    exact isValidEntry_available u ci (List.of_mem_filter hci)
  have e1 : (getUserCart db u).isEmpty = false := by
    cases hgl : getUserCart db u with
    | nil => exact absurd hgl hne
    | cons a l => rfl
  have e2 : ((getUserCart db u).filter (isValidEntry u)).isEmpty = false := by
    cases hgl : (getUserCart db u).filter (isValidEntry u) with
    | nil => exact absurd hgl hval
    | cons a l => rfl
  have e3 : createFromCart u ((getUserCart db u).filter (isValidEntry u))
      = .ok (savePurchase
          { user := u
            products := (checkoutValid db u).map snapOf
            total := round2 (linesTotal ((checkoutValid db u).map snapOf))
            status := .completed
            notes := "" }) :=
    createFromCart_ok u (checkoutValid db u) hval hav
  unfold createPurchase
  simp only [partitionCart_fst, partitionCart_snd, e1, e2, e3,
    Bool.false_eq_true, if_false]
  rfl

theorem checkoutPurchase_total (db : DB) (u : UserId) (notes : String) :
    (checkoutPurchase db u notes).total
      = round2 (linesTotal (checkoutPurchase db u notes).products) := by
  unfold checkoutPurchase
  by_cases h : jsTrim notes ≠ ""
  · rw [if_pos h]
    rfl
  · rw [if_neg h]
    rfl

theorem checkoutPurchase_products (db : DB) (u : UserId) (notes : String) :
    (checkoutPurchase db u notes).products = (checkoutValid db u).map snapOf := by
  unfold checkoutPurchase
  by_cases h : jsTrim notes ≠ ""
  · rw [if_pos h]
    rfl
  · rw [if_neg h]
    rfl

theorem checkoutPurchase_user (db : DB) (u : UserId) (notes : String) :
    (checkoutPurchase db u notes).user = u := by
  unfold checkoutPurchase
  by_cases h : jsTrim notes ≠ ""
  · rw [if_pos h]
    rfl
  · rw [if_neg h]
    rfl

theorem checkoutPurchase_status (db : DB) (u : UserId) (notes : String) :
    (checkoutPurchase db u notes).status = .completed := by
  unfold checkoutPurchase
  by_cases h : jsTrim notes ≠ ""
  · rw [if_pos h]
    rfl
  · rw [if_neg h]
    rfl

theorem checkoutCleaned_products (db : DB) (u : UserId) :
    (checkoutCleaned db u).products = db.products := by
  unfold checkoutCleaned
  by_cases h : (checkoutDropped db u).isEmpty <;> simp [h, deleteCartItems]

/-- Example store: buyer 1's cart holds a valid entry (the available
lamp of seller 2), an entry for an unavailable chair, and an entry for a
deleted product; user 2 also has an unrelated cart entry. -/
def lampProduct : Product := ⟨2, "Lamp", "", 12, true⟩

def chairProduct : Product := ⟨3, "Chair", "", 30, false⟩

def exDB : DB :=
  ⟨[(10, lampProduct), (7, chairProduct)],
   [⟨1, 1, 10, 2⟩, ⟨2, 1, 7, 1⟩, ⟨3, 1, 99, 1⟩, ⟨4, 2, 10, 1⟩], []⟩

/-- Claim C1: at the moment a Purchase is persisted — at creation from a cart,
and after any later edit such as adding notes followed by a re-save —
its `total` equals the sum of `quantity × priceAtPurchase` over its
snapshot lines rounded to 2 decimal places, and the save path
recomputes the total from the lines, so a caller-supplied total that
disagrees with the line items is overwritten. -/
theorem purchase_total_invariant :
    (∀ (db : DB) (u : UserId) (notes : String) (pur : Purchase)
        (dropped : List DroppedItem) (db2 : DB),
        createPurchase db u notes = (.success pur dropped, db2) →
        pur.total = round2 (linesTotal pur.products)) ∧
    (∀ (p : Purchase) (t : ℚ),
        savePurchase { p with total := t } = savePurchase p) := by
  constructor
  · intro db u notes pur dropped db2 h
    by_cases hne : getUserCart db u = []
    · rw [createPurchase_empty_eq db u notes hne] at h
      simp at h
    · by_cases hval : checkoutValid db u = []
      · rw [createPurchase_noValid_eq db u notes hne hval] at h
        simp at h
      · rw [createPurchase_success_eq db u notes hne hval] at h
        simp only [Prod.mk.injEq, CheckoutOutcome.success.injEq] at h
        obtain ⟨⟨hp, hd⟩, hdb⟩ := h
        rw [← hp]
        exact checkoutPurchase_total db u notes
  · intro p t
    rfl

/-- Witness for C1: a concrete mixed-cart checkout persists a purchase,
and its total is the rounded line sum. -/
theorem purchase_total_invariant_witness :
    (checkoutPurchase exDB 1 " gift ").total
      = round2 (linesTotal (checkoutPurchase exDB 1 " gift ").products) :=
  purchase_total_invariant.1 exDB 1 " gift " (checkoutPurchase exDB 1 " gift ")
    (checkoutDropped exDB 1) _
    (createPurchase_success_eq exDB 1 " gift " (by decide) (by decide))

/-- Claim C4: checkout on an empty cart fails with EmptyCart, and the whole
database — purchases and every user's cart entries — is returned
unchanged. -/
theorem checkout_empty_cart (db : DB) (u : UserId) (notes : String)
    (h : getUserCart db u = []) :
    createPurchase db u notes = (.emptyCart, db) :=
  createPurchase_empty_eq db u notes h

/-- Witness for C4: user 5 has no cart entries in the example store. -/
theorem checkout_empty_cart_witness :
    getUserCart exDB 5 = [] ∧ createPurchase exDB 5 "x" = (.emptyCart, exDB) :=
  ⟨by decide, checkout_empty_cart exDB 5 "x" (by decide)⟩

/-- Claim C2: checkout on a cart with at least one valid and at least one
invalid entry succeeds: the persisted purchase snapshots exactly the
valid entries (copying title, image, seller and current price via
`snapOf`), carries status completed, the invalid entries are reported
as dropped, and the buyer's cart is left completely empty. -/
theorem checkout_mixed_cart (db : DB) (u : UserId) (notes : String)
    (hv : ∃ ci ∈ getUserCart db u, isValidEntry u ci = true)
    (hi : ∃ ci ∈ getUserCart db u, isValidEntry u ci = false) :
    ∃ pur dropped db2,
      createPurchase db u notes = (.success pur dropped, db2) ∧
      pur.products = (checkoutValid db u).map snapOf ∧
      pur.user = u ∧
      pur.status = .completed ∧
      dropped = checkoutDropped db u ∧
      dropped ≠ [] ∧
      getUserCart db2 u = [] ∧
      db2.purchases = db.purchases ++ [pur] := by
  obtain ⟨cv, hcv, hcvval⟩ := hv
  have hne : getUserCart db u ≠ [] := List.ne_nil_of_mem hcv
  have hval : checkoutValid db u ≠ [] :=
    List.ne_nil_of_mem (List.mem_filter.mpr ⟨hcv, hcvval⟩)
  refine ⟨checkoutPurchase db u notes, checkoutDropped db u, _,
    createPurchase_success_eq db u notes hne hval,
    checkoutPurchase_products db u notes,
    checkoutPurchase_user db u notes,
    checkoutPurchase_status db u notes,
    rfl, ?_, ?_, ?_⟩
  · obtain ⟨ci2, hci2, hinv⟩ := hi
    have : dropOf u ci2 ∈ checkoutDropped db u :=
      List.mem_map_of_mem (dropOf u)
        (List.mem_filter.mpr ⟨hci2, by simp [hinv]⟩)
    exact List.ne_nil_of_mem this
  · exact getUserCart_clear (checkoutCleaned db u) u _
  · simp [checkoutCleaned_purchases]

/-- Witness for C2: the concrete mixed cart of `exDB`. -/
theorem checkout_mixed_cart_witness :
    (∃ ci ∈ getUserCart exDB 1, isValidEntry 1 ci = true) ∧
    (∃ ci ∈ getUserCart exDB 1, isValidEntry 1 ci = false) ∧
    (∃ pur dropped db2,
      createPurchase exDB 1 " gift " = (.success pur dropped, db2) ∧
      pur.products = (checkoutValid exDB 1).map snapOf ∧
      pur.user = 1 ∧
      pur.status = .completed ∧
      dropped = checkoutDropped exDB 1 ∧
      dropped ≠ [] ∧
      getUserCart db2 1 = [] ∧
      db2.purchases = exDB.purchases ++ [pur]) :=
  ⟨by decide, by decide, checkout_mixed_cart exDB 1 " gift " (by decide) (by decide)⟩

/-- Example store in which every entry of buyer 1's cart is invalid:
one references the unavailable chair, the other a deleted product. -/
def allInvalidDB : DB :=
  ⟨[(7, chairProduct)], [⟨1, 1, 7, 1⟩, ⟨2, 1, 99, 2⟩], []⟩

/-- Claim C3: checkout on a nonempty cart whose entries are all invalid first
deletes all of those entries (leaving the buyer's cart empty) and then
fails with NoValidItems, reporting every entry with its reason; no
purchase is created and the product store is untouched. -/
theorem checkout_all_invalid (db : DB) (u : UserId) (notes : String)
    (hne : getUserCart db u ≠ [])
    (hall : ∀ ci ∈ getUserCart db u, isValidEntry u ci = false) :
    ∃ db2,
      createPurchase db u notes
        = (.noValidItems ((getUserCart db u).map (dropOf u)), db2) ∧
      getUserCart db2 u = [] ∧
      db2.purchases = db.purchases ∧
      db2.products = db.products := by
  have hval : checkoutValid db u = [] := by
    unfold checkoutValid
    rw [List.filter_eq_nil_iff]
    intro a ha
    simp [hall a ha]
  have hdrop : checkoutDropped db u = (getUserCart db u).map (dropOf u) := by
    unfold checkoutDropped
    congr 1
    rw [List.filter_eq_self]
    intro a ha
    simp [hall a ha]
  refine ⟨checkoutCleaned db u, ?_, ?_, checkoutCleaned_purchases db u,
    checkoutCleaned_products db u⟩
  · rw [createPurchase_noValid_eq db u notes hne hval, hdrop]
  · have hids : (checkoutDropped db u).map (·.cartItemId)
        = (db.cartItems.filter (fun ci => ci.user == u)).map (·.id) := by
      rw [hdrop]
      unfold getUserCart
      rw [List.map_map, List.map_map]
      exact List.map_congr_left (fun a ha => by
        show (dropOf u (populate db a)).cartItemId = a.id
        rw [dropOf_id, populate_id])
    have hemp : (checkoutDropped db u).isEmpty = false := by
      rw [hdrop]
      cases hgl : getUserCart db u with
      | nil => exact absurd hgl hne
      | cons a l => rfl
    unfold checkoutCleaned
    rw [hemp]
    simp only [Bool.false_eq_true, if_false]
    rw [hids]
    unfold getUserCart deleteCartItems
    rw [List.map_eq_nil_iff, List.filter_eq_nil_iff]
    intro a ha hau
    obtain ⟨hmem, hnc⟩ := List.mem_filter.mp ha
    have hin : a.id ∈ (db.cartItems.filter (fun ci => ci.user == u)).map (·.id) :=
      List.mem_map_of_mem _ (List.mem_filter.mpr ⟨hmem, hau⟩)
    have hc : ((db.cartItems.filter (fun ci => ci.user == u)).map (·.id)).contains a.id
        = true :=
      List.elem_iff.mpr hin
    rw [hc] at hnc
    simp at hnc

/-- Witness for C3: the concrete all-invalid cart of `allInvalidDB`. -/
theorem checkout_all_invalid_witness :
    (getUserCart allInvalidDB 1 ≠ []) ∧
    (∀ ci ∈ getUserCart allInvalidDB 1, isValidEntry 1 ci = false) ∧
    (∃ db2,
      createPurchase allInvalidDB 1 ""
        = (.noValidItems ((getUserCart allInvalidDB 1).map (dropOf 1)), db2) ∧
      getUserCart db2 1 = [] ∧
      db2.purchases = allInvalidDB.purchases ∧
      db2.products = allInvalidDB.products) :=
  ⟨by decide, by decide,
   checkout_all_invalid allInvalidDB 1 "" (by decide) (by decide)⟩

/-- Listing A of the §8 scenario: seller 2, price 10.00, stored through
the product save path. -/
def prodA : Product := saveProduct ⟨2, "Listing A", "", 10, true⟩

/-- Listing B of the §8 scenario: seller 3, submitted with price 5.005
and stored through the product save path. -/
def prodB : Product := saveProduct ⟨3, "Listing B", "", 5005/1000, true⟩

/-- The §8 scenario store: buyer 1 holds quantity 2 of listing A and
quantity 1 of listing B. -/
def dbC9 : DB :=
  ⟨[(1, prodA), (2, prodB)], [⟨1, 1, 1, 2⟩, ⟨2, 1, 2, 1⟩], []⟩

/-- The total of the purchase a checkout produces, `none` when the
checkout does not succeed. -/
def checkoutTotal (db : DB) (u : UserId) (notes : String) : Option ℚ :=
  match (createPurchase db u notes).1 with
  | .success pur _ => some pur.total
  | _ => none

/-- Claim C9: for the cart [A: quantity 2 at 10.00, B: quantity 1 at 5.005],
the stored price of B is 5.01 (rounded at listing save time) and
checkout produces a purchase whose total is exactly 25.01. -/
theorem scenario_rounding_total :
    (findProduct dbC9 2).map (·.price) = some (501/100) ∧
    checkoutTotal dbC9 1 "" = some (2501/100) := by
  have hA : prodA.price = 10 := by
    norm_num [prodA, saveProduct, round2, jsRound]
  have hB : prodB.price = 501/100 := by
    norm_num [prodB, saveProduct, round2, jsRound]
  constructor
  · rw [show findProduct dbC9 2 = some prodB from rfl]
    simp [hB]
  · have hstep : checkoutTotal dbC9 1 ""
        = some (round2 (linesTotal
            [⟨1, 2, prodA.price, "Listing A", "", 2⟩,
             ⟨2, 1, prodB.price, "Listing B", "", 3⟩])) := by
      unfold checkoutTotal
      rw [createPurchase_success_eq dbC9 1 "" (by decide) (by decide)]
      rfl
    rw [hstep, hA, hB]
    norm_num [linesTotal, round2, jsRound]

theorem addOrUpdateItem_existing (db : DB) (u : UserId) (pid : ProductId)
    (q : Nat) (c0 : CartItem)
    (hf : db.cartItems.find? (fun c => c.user == u && c.product == pid) = some c0)
    (hq : 1 ≤ q) :
    addOrUpdateItem db u pid q
      = .ok ({ c0 with quantity := min (c0.quantity + q) 10 },
        { db with cartItems := db.cartItems.map (fun c =>
            if c.id == c0.id
              then { c0 with quantity := min (c0.quantity + q) 10 } else c) }) := by
  have hv : cartItemValidate { c0 with quantity := min (c0.quantity + q) 10 }
      = .ok { c0 with quantity := min (c0.quantity + q) 10 } := by
    unfold cartItemValidate
    rw [if_pos (And.intro (le_min (by omega) (by norm_num)) (min_le_right _ _))]
  unfold addOrUpdateItem
  rw [hf]
  dsimp only
  rw [hv]

theorem addOrUpdateItem_new (db : DB) (u : UserId) (pid : ProductId)
    (q : Nat) (p : Product)
    (hf : db.cartItems.find? (fun c => c.user == u && c.product == pid) = none)
    (hp : findProduct db pid = some p) (hav : p.isAvailable = true)
    (hq : 1 ≤ q) :
    addOrUpdateItem db u pid q
      = .ok (⟨freshCartId db, u, pid, min q 10⟩,
        { db with cartItems :=
            db.cartItems ++ [⟨freshCartId db, u, pid, min q 10⟩] }) := by
  have hchk : cartItemCheckProduct db ⟨freshCartId db, u, pid, min q 10⟩
      = .ok () := by
    unfold cartItemCheckProduct
    dsimp only
    rw [hp]
    dsimp only
    rw [if_pos hav]
  have hv : cartItemValidate (⟨freshCartId db, u, pid, min q 10⟩ : CartItem)
      = .ok ⟨freshCartId db, u, pid, min q 10⟩ := by
    unfold cartItemValidate
    rw [if_pos (And.intro (le_min (by omega) (by norm_num)) (min_le_right _ _))]
  unfold addOrUpdateItem
  rw [hf]
  dsimp only
  rw [hchk]
  dsimp only
  rw [hv]

/-- The contract of `addToCart` claimed by the cart-management spec:
the three failure modes leave the store untouched, a successful add
either increments the unique existing (owner, listing) entry with a
clamp at 10 (creating no second row) or inserts a fresh entry with
quantity `min(quantity, 10)`, and quantities at most 10 are preserved
across any add. -/
def AddSpec (db : DB) (u : UserId) (pid : ProductId) (q : Nat) : Prop :=
  (findProduct db pid = none → addToCart db u pid q = (.notFound, db)) ∧
  (∀ p, findProduct db pid = some p → p.isAvailable = false →
      addToCart db u pid q = (.unavailable, db)) ∧
  (∀ p, findProduct db pid = some p → p.isAvailable = true → p.user = u →
      addToCart db u pid q = (.selfPurchase, db)) ∧
  (∀ p, findProduct db pid = some p → p.isAvailable = true → p.user ≠ u →
    (∀ c0, db.cartItems.find? (fun c => c.user == u && c.product == pid)
        = some c0 →
      addToCart db u pid q
        = (.added { c0 with quantity := min (c0.quantity + q) 10 },
           { db with cartItems := db.cartItems.map (fun c =>
               if c.id == c0.id
                 then { c0 with quantity := min (c0.quantity + q) 10 }
                 else c) }) ∧
      (addToCart db u pid q).2.cartItems.length = db.cartItems.length) ∧
    (db.cartItems.find? (fun c => c.user == u && c.product == pid) = none →
      addToCart db u pid q
        = (.added ⟨freshCartId db, u, pid, min q 10⟩,
           { db with cartItems :=
               db.cartItems ++ [⟨freshCartId db, u, pid, min q 10⟩] }))) ∧
  ((∀ c ∈ db.cartItems, c.quantity ≤ 10) →
    ∀ c ∈ (addToCart db u pid q).2.cartItems, c.quantity ≤ 10)

/-- Claim C5: `add(owner, listingId, quantity)` fails with NotFound when the
listing is missing, Unavailable when its availability flag is false,
SelfPurchase when the caller owns it; otherwise it increments the
existing (owner, listing) entry clamped at 10 without ever creating a
second entry for the pair, or inserts a fresh entry with quantity
`min(quantity, 10)` — so every cart entry's quantity stays at most 10
across any sequence of adds. -/
theorem addToCart_spec (db : DB) (u : UserId) (pid : ProductId) (q : Nat)
    (hq : 1 ≤ q) : AddSpec db u pid q := by
  refine ⟨?_, ?_, ?_, ?_, ?_⟩
  · intro h0
    unfold addToCart
    rw [h0]
  · intro p hp hav
    unfold addToCart
    rw [hp]
    dsimp only
    rw [hav, if_pos (by simp)]
  · intro p hp hav hpu
    unfold addToCart
    rw [hp]
    dsimp only
    rw [hav, if_neg (by simp), if_pos (by simp [hpu])]
  · intro p hp hav hpu
    constructor
    · intro c0 hf
      have heq : addToCart db u pid q
          = (.added { c0 with quantity := min (c0.quantity + q) 10 },
             { db with cartItems := db.cartItems.map (fun c =>
                 if c.id == c0.id
                   then { c0 with quantity := min (c0.quantity + q) 10 }
                   else c) }) := by
        unfold addToCart
        rw [hp]
        dsimp only
        rw [hav, if_neg (by simp), if_neg (by simp [hpu]),
          addOrUpdateItem_existing db u pid q c0 hf hq]
      refine ⟨heq, ?_⟩
      rw [heq]
      exact List.length_map _ _
    · intro hf
      unfold addToCart
      rw [hp]
      dsimp only
      rw [hav, if_neg (by simp), if_neg (by simp [hpu]),
        addOrUpdateItem_new db u pid q p hf hp hav hq]
  · intro hb c hc
    cases hp : findProduct db pid with
    | none =>
      unfold addToCart at hc
      rw [hp] at hc
      exact hb c hc
    | some p =>
      by_cases hav : p.isAvailable = true
      · by_cases hpu : p.user = u
        · unfold addToCart at hc
          rw [hp] at hc
          dsimp only at hc
          rw [hav, if_neg (by simp), if_pos (by simp [hpu])] at hc
          exact hb c hc
        · cases hf : db.cartItems.find? (fun c => c.user == u && c.product == pid) with
          | some c0 =>
            unfold addToCart at hc
            rw [hp] at hc
            dsimp only at hc
            rw [hav, if_neg (by simp), if_neg (by simp [hpu]),
              addOrUpdateItem_existing db u pid q c0 hf hq] at hc
            dsimp only at hc
            obtain ⟨a, ha, hac⟩ := List.mem_map.mp hc
            by_cases hid : (a.id == c0.id) = true
            · rw [if_pos hid] at hac
              rw [← hac]
              exact Nat.min_le_right _ _
            · rw [if_neg hid] at hac
              rw [← hac]
              exact hb a ha
          | none =>
            unfold addToCart at hc
            rw [hp] at hc
            dsimp only at hc
            rw [hav, if_neg (by simp), if_neg (by simp [hpu]),
              addOrUpdateItem_new db u pid q p hf hp hav hq] at hc
            dsimp only at hc
            rcases List.mem_append.mp hc with h1 | h1
            · exact hb c h1
            · rw [List.mem_singleton.mp h1]
              exact Nat.min_le_right _ _
      · unfold addToCart at hc
        rw [hp] at hc
        dsimp only at hc
        rw [Bool.eq_false_iff.mpr hav] at hc
        exact hb c hc

/-- Example store for cart adds: available mug of seller 2, buyer 1
already holds 9 of it. -/
def addDB : DB := ⟨[(5, ⟨2, "Mug", "", 4, true⟩)], [⟨1, 1, 5, 9⟩], []⟩

/-- Witness for C5: adding 2 more mugs to an entry at quantity 9. -/
theorem addToCart_spec_witness : 1 ≤ 2 ∧ AddSpec addDB 1 5 2 :=
  ⟨by decide, addToCart_spec addDB 1 5 2 (by decide)⟩

/-- The contract of `updateCartItem` on an existing entry claimed by the
cart-management spec: ownership is checked first (Forbidden, store
untouched), then a missing or unavailable listing deletes the entry as
a side effect (Unavailable), otherwise the quantity is updated. -/
def UpdateSpec (db : DB) (u : UserId) (id : CartId) (q : Nat) : Prop :=
  ∀ ci, findCartItem db id = some ci →
    (ci.user ≠ u → updateCartItem db u id q = (.forbidden, db)) ∧
    (ci.user = u → findProduct db ci.product = none →
        updateCartItem db u id q = (.unavailableRemoved, deleteCartItem db id)) ∧
    (∀ p, ci.user = u → findProduct db ci.product = some p →
        p.isAvailable = false →
        updateCartItem db u id q = (.unavailableRemoved, deleteCartItem db id)) ∧
    (∀ p, ci.user = u → findProduct db ci.product = some p →
        p.isAvailable = true →
        updateCartItem db u id q
          = (.updated { ci with quantity := q },
             { db with cartItems := db.cartItems.map (fun c =>
                 if c.id == ci.id then { ci with quantity := q } else c) }))

/-- Claim C6: `setQuantity(owner, entryId, quantity)` on an existing entry
fails with Forbidden (entry unchanged) when the entry belongs to
someone else; deletes the entry and fails with Unavailable when its
listing is gone or unavailable; and otherwise updates the quantity to
the given (validated) value. -/
theorem updateCartItem_spec (db : DB) (u : UserId) (id : CartId) (q : Nat)
    (hq1 : 1 ≤ q) (hq10 : q ≤ 10) : UpdateSpec db u id q := by
  intro ci hfind
  refine ⟨?_, ?_, ?_, ?_⟩
  · intro hu
    unfold updateCartItem
    rw [hfind]
    dsimp only
    rw [if_pos (by simp [hu])]
  · intro hu hp
    unfold updateCartItem
    rw [hfind]
    dsimp only
    rw [if_neg (by simp [hu]), hp]
  · intro p hu hp hav
    unfold updateCartItem
    rw [hfind]
    dsimp only
    rw [if_neg (by simp [hu]), hp]
    dsimp only
    rw [hav, if_pos (by simp)]
  · intro p hu hp hav
    have hv : cartItemValidate { ci with quantity := q }
        = .ok { ci with quantity := q } := by
      unfold cartItemValidate
      rw [if_pos ⟨hq1, hq10⟩]
    unfold updateCartItem
    rw [hfind]
    dsimp only
    rw [if_neg (by simp [hu]), hp]
    dsimp only
    rw [hav, if_neg (by simp), hv]

/-- Example store for cart updates: buyer 1 holds the available mug
(entry 1) and the unavailable rug (entry 2); user 2 holds entry 3. -/
def updDB : DB :=
  ⟨[(5, ⟨2, "Mug", "", 4, true⟩), (6, ⟨2, "Rug", "", 8, false⟩)],
   [⟨1, 1, 5, 2⟩, ⟨2, 1, 6, 1⟩, ⟨3, 2, 5, 1⟩], []⟩

/-- Witness for C6: updating entry 1 of `updDB` to quantity 3. -/
theorem updateCartItem_spec_witness :
    1 ≤ 3 ∧ 3 ≤ 10 ∧ UpdateSpec updDB 1 1 3 :=
  ⟨by decide, by decide, updateCartItem_spec updDB 1 1 3 (by decide) (by decide)⟩

/-- The implicit lookup-order contract of `updateCartItem` and
`removeFromCart`: existence is checked before ownership, so a missing
entry id yields NotFound (never Forbidden), Forbidden arises only for
an existing entry of another user, and both failures leave the store
untouched. -/
def MissingEntrySpec (db : DB) (u : UserId) (id : CartId) (q : Nat) : Prop :=
  (findCartItem db id = none →
      updateCartItem db u id q = (.notFound, db) ∧
      removeFromCart db u id = (.notFound, db)) ∧
  (∀ ci, findCartItem db id = some ci → ci.user ≠ u →
      updateCartItem db u id q = (.forbidden, db) ∧
      removeFromCart db u id = (.forbidden, db))

/-- Claim C10: for `setQuantity` and `remove`, a nonexistent entry id fails
with NotFound rather than Forbidden; Forbidden is returned only when
the entry exists and belongs to a different user; in either failure no
cart entry is modified or deleted. -/
theorem cart_entry_lookup_order (db : DB) (u : UserId) (id : CartId)
    (q : Nat) : MissingEntrySpec db u id q := by
  constructor
  · intro h0
    constructor
    · unfold updateCartItem
      rw [h0]
    · unfold removeFromCart
      rw [h0]
  · intro ci hfind hu
    constructor
    · unfold updateCartItem
      rw [hfind]
      dsimp only
      rw [if_pos (by simp [hu])]
    · unfold removeFromCart
      rw [hfind]
      dsimp only
      rw [if_pos (by simp [hu])]

/-- Witness for C10: entry 99 does not exist in `updDB`, and entry 3
belongs to user 2, not to caller 1. -/
theorem cart_entry_lookup_order_witness :
    MissingEntrySpec updDB 1 99 5 ∧ MissingEntrySpec updDB 1 3 5 :=
  ⟨cart_entry_lookup_order updDB 1 99 5, cart_entry_lookup_order updDB 1 3 5⟩

/-- Claim C7: `view(owner)` drops every cart entry whose listing is missing
or unavailable — deleting it from the store and excluding it from the
returned items and total — returns the rounded total over the remaining
entries, and reports exactly how many entries were dropped; entries not
dropped survive, and the other collections are untouched. -/
theorem getCart_spec (db : DB) (u : UserId) :
    ∃ view db2, getCart db u = (view, db2) ∧
      view.items = (getUserCart db u).filter itemAvailable ∧
      view.total = round2 (cartSum ((getUserCart db u).filter itemAvailable)) ∧
      view.removedUnavailableItems
        = ((getUserCart db u).filter (fun it => !itemAvailable it)).length ∧
      (∀ it ∈ getUserCart db u, itemAvailable it = false →
        ∀ c ∈ db2.cartItems, c.id ≠ it.id) ∧
      (∀ c ∈ db.cartItems, c ∈ db2.cartItems ∨
        ∃ it ∈ getUserCart db u, itemAvailable it = false ∧ it.id = c.id) ∧
      db2.purchases = db.purchases ∧
      db2.products = db.products := by
  refine ⟨_, _, rfl, rfl, rfl, rfl, ?_, ?_, ?_, ?_⟩
  · intro it hit hbad c hc hceq
    have hbadmem : it ∈ (getUserCart db u).filter (fun x => !itemAvailable x) :=
      List.mem_filter.mpr ⟨hit, by simp [hbad]⟩
    have hemp : ((getUserCart db u).filter (fun x => !itemAvailable x)).isEmpty
        = false := by
      cases hgl : (getUserCart db u).filter (fun x => !itemAvailable x) with
      | nil =>
        rw [hgl] at hbadmem
        exact absurd hbadmem (List.not_mem_nil it)
      | cons a l => rfl
    rw [hemp] at hc
    simp only [Bool.false_eq_true, if_false] at hc
    obtain ⟨hmem, hnc⟩ := List.mem_filter.mp hc
    have hin : c.id ∈ ((getUserCart db u).filter
        (fun x => !itemAvailable x)).map (·.id) := by
      rw [hceq]
      exact List.mem_map_of_mem _ hbadmem
    have hct : (((getUserCart db u).filter
        (fun x => !itemAvailable x)).map (·.id)).contains c.id = true :=
      List.elem_iff.mpr hin
    rw [hct] at hnc
    simp at hnc
  · intro c hc
    by_cases hin : c.id ∈ ((getUserCart db u).filter
        (fun x => !itemAvailable x)).map (·.id)
    · right
      obtain ⟨it, hitf, hid⟩ := List.mem_map.mp hin
      obtain ⟨hitc, hbad⟩ := List.mem_filter.mp hitf
      exact ⟨it, hitc, by simpa using hbad, hid⟩
    · left
      by_cases hemp : ((getUserCart db u).filter
          (fun x => !itemAvailable x)).isEmpty = true
      · rw [hemp]
        simp only [if_true]
        exact hc
      · rw [Bool.eq_false_iff.mpr hemp]
        simp only [Bool.false_eq_true, if_false]
        refine List.mem_filter.mpr ⟨hc, ?_⟩
        have : (((getUserCart db u).filter
            (fun x => !itemAvailable x)).map (·.id)).contains c.id = false := by
          cases hct : (((getUserCart db u).filter
              (fun x => !itemAvailable x)).map (·.id)).contains c.id with
          | false => rfl
          | true => exact absurd (List.elem_iff.mp hct) hin
        rw [this]
        rfl
  · by_cases hemp : ((getUserCart db u).filter
        (fun x => !itemAvailable x)).isEmpty = true <;>
      simp [getCart, hemp, deleteCartItems]
  · by_cases hemp : ((getUserCart db u).filter
        (fun x => !itemAvailable x)).isEmpty = true <;>
      simp [getCart, hemp, deleteCartItems]

/-- Example store for `view`: buyer 1 holds the available mug, the
unavailable rug and a dangling reference; user 2 holds the mug too. -/
def viewDB : DB :=
  ⟨[(5, ⟨2, "Mug", "", 4, true⟩), (6, ⟨2, "Rug", "", 8, false⟩)],
   [⟨1, 1, 5, 2⟩, ⟨2, 1, 6, 1⟩, ⟨3, 1, 77, 1⟩, ⟨4, 2, 5, 1⟩], []⟩

/-- Witness for C7: the concrete store `viewDB`. -/
theorem getCart_spec_witness :
    ∃ view db2, getCart viewDB 1 = (view, db2) ∧
      view.items = (getUserCart viewDB 1).filter itemAvailable ∧
      view.total = round2 (cartSum ((getUserCart viewDB 1).filter itemAvailable)) ∧
      view.removedUnavailableItems
        = ((getUserCart viewDB 1).filter (fun it => !itemAvailable it)).length ∧
      (∀ it ∈ getUserCart viewDB 1, itemAvailable it = false →
        ∀ c ∈ db2.cartItems, c.id ≠ it.id) ∧
      (∀ c ∈ viewDB.cartItems, c ∈ db2.cartItems ∨
        ∃ it ∈ getUserCart viewDB 1, itemAvailable it = false ∧ it.id = c.id) ∧
      db2.purchases = viewDB.purchases ∧
      db2.products = viewDB.products :=
  getCart_spec viewDB 1

/-- Claim C8 (code bug in `getPurchases`): an out-of-range page or limit makes
the purchase-history handler throw (assignment to a `const` binding)
and answer 500 instead of clamping — an in-range request still works,
and the listing query's pagination does clamp as specified. -/
theorem pagination_clamp_bug :
    getPurchasesPagination (some 1) (some 100) = .error .typeErrorConstAssign ∧
    getPurchasesPagination (some (-1)) none = .error .typeErrorConstAssign ∧
    getPurchasesPagination (some 2) (some 10) = .ok (2, 10) ∧
    getProductsPagination (some 1) (some 100) = (1, 50) ∧
    getProductsPagination (some (-1)) none = (1, 10) :=
  ⟨rfl, rfl, rfl, by norm_num [getProductsPagination, parseIntOr],
   by norm_num [getProductsPagination, parseIntOr]⟩

end EcoFinds
